import Mathlib

/-!
Verification of the feature-derivation core of the fraud-detection app
(`app_fraud_detection.py`).

The reproducible logic of the repository is:
  * `dic_type` — the fixed dictionary translating the four business-facing
    (localized) transaction-type labels to the four canonical codes;
  * `create_advanced_features` — the pure function adding twelve derived
    columns to a six-field raw transaction record;
  * the prediction flow behind the "Analyser" button: translate the type,
    build the input record, derive the features, call the classifier.

Numeric columns are modelled as exact rationals (the pandas columns hold
numbers; the arithmetic in the source is the plain field arithmetic below),
except the three logarithmic features, which are real numbers
(`np.log1p x = log (1 + x)`). The binary indicators are integers, mirroring
`.astype(int)`.
-/

/-- Raw transaction record: the six columns of the `input_data` DataFrame
built from the form (translated `type` plus five numeric fields). -/
structure RawTransaction where
  type : String
  amount : ℚ
  oldbalanceOrg : ℚ
  newbalanceOrig : ℚ
  oldbalanceDest : ℚ
  newbalanceDest : ℚ
  deriving Repr, DecidableEq

/-- Enriched transaction record: the six raw columns plus the twelve derived
columns added by `create_advanced_features`. -/
structure EnrichedTransaction where
  type : String
  amount : ℚ
  oldbalanceOrg : ℚ
  newbalanceOrig : ℚ
  oldbalanceDest : ℚ
  newbalanceDest : ℚ
  balance_diff_orig : ℚ
  balance_diff_dest : ℚ
  amount_to_oldbalance_orig : ℚ
  amount_to_oldbalance_dest : ℚ
  error_balance_orig : ℚ
  error_balance_dest : ℚ
  is_zero_balance_orig : ℤ
  is_zero_balance_dest : ℤ
  large_transaction : ℤ
  log_amount : ℝ
  log_oldbalance_orig : ℝ
  log_oldbalance_dest : ℝ

/-- The dictionary `dic_type` of the source, as an association list: the four
localized display labels of the form map to the four canonical codes the
classifier expects. -/
def dic_type_entries : List (String × String) :=
  [("PAIEMENT", "PAYMENT"),
   ("TRANSFERT", "TRANSFER"),
   ("RETRAIT", "CASH_OUT"),
   ("DEPOT", "CASH_IN")]

/-- Lookup in `dic_type`: `some code` on the four keys, `none` otherwise
(in Python, indexing the dict with a missing key raises `KeyError`, the
failure the spec names `UnknownTransactionType`). -/
def dic_type (t : String) : Option String :=
  dic_type_entries.lookup t

/-- The four keys of `dic_type` (the business-facing labels of the form's
selectbox). -/
def typeLabels : List String := ["PAIEMENT", "TRANSFERT", "RETRAIT", "DEPOT"]

/-- The four canonical type codes. -/
def canonicalCodes : List String := ["PAYMENT", "TRANSFER", "CASH_OUT", "CASH_IN"]

/-- The feature deriver `create_advanced_features`: works on a copy of the
input record and adds the twelve derived columns, in the order of the
source. `np.log1p x` is `Real.log (1 + x)`. -/
noncomputable def create_advanced_features (df : RawTransaction) : EnrichedTransaction :=
  let balance_diff_orig : ℚ := df.oldbalanceOrg - df.newbalanceOrig
  let balance_diff_dest : ℚ := df.newbalanceDest - df.oldbalanceDest
  let amount_to_oldbalance_orig : ℚ := df.amount / (df.oldbalanceOrg + 1)
  let amount_to_oldbalance_dest : ℚ := df.amount / (df.oldbalanceDest + 1)
  let error_balance_orig : ℚ := balance_diff_orig - df.amount
  let error_balance_dest : ℚ := balance_diff_dest - df.amount
  let is_zero_balance_orig : ℤ := if df.newbalanceOrig = 0 then 1 else 0
  let is_zero_balance_dest : ℤ := if df.oldbalanceDest = 0 then 1 else 0
  let large_transaction : ℤ := if df.amount > 200000 then 1 else 0
  { type := df.type
    amount := df.amount
    oldbalanceOrg := df.oldbalanceOrg
    newbalanceOrig := df.newbalanceOrig
    oldbalanceDest := df.oldbalanceDest
    newbalanceDest := df.newbalanceDest
    balance_diff_orig := balance_diff_orig
    balance_diff_dest := balance_diff_dest
    amount_to_oldbalance_orig := amount_to_oldbalance_orig
    amount_to_oldbalance_dest := amount_to_oldbalance_dest
    error_balance_orig := error_balance_orig
    error_balance_dest := error_balance_dest
    is_zero_balance_orig := is_zero_balance_orig
    is_zero_balance_dest := is_zero_balance_dest
    large_transaction := large_transaction
    log_amount := Real.log (1 + (df.amount : ℝ))
    log_oldbalance_orig := Real.log (1 + (df.oldbalanceOrg : ℝ))
    log_oldbalance_dest := Real.log (1 + (df.oldbalanceDest : ℝ)) }

/-- Guarded variant of `create_advanced_features` recording the spec's
totality contract: it returns `none` exactly when one of the partial
operations of the formulas is mathematically undefined — a ratio denominator
equal to zero, or a logarithm taken at a non-positive argument — and
otherwise returns the derived record. -/
noncomputable def create_advanced_features_checked (df : RawTransaction) :
    Option EnrichedTransaction :=
  if df.oldbalanceOrg + 1 = 0 ∨ df.oldbalanceDest + 1 = 0
      ∨ 1 + df.amount ≤ 0 ∨ 1 + df.oldbalanceOrg ≤ 0 ∨ 1 + df.oldbalanceDest ≤ 0 then
    none
  else
    some (create_advanced_features df)

/-- Failure modes of the request flow. `unknownTransactionType` is the
failure of the `dic_type` lookup on an unrecognized label (a `KeyError` in
the source, named `UnknownTransactionType` by the spec). -/
inductive FraudError where
  | unknownTransactionType
  deriving Repr, DecidableEq

/-- The prediction flow behind the "Analyser" button, with the feature
deriver and the classifier as explicit parameters: translate the type label
through `dic_type` (failing on an unknown label), build the raw record,
derive the features, and hand the enriched record to the classifier, which
returns the predicted label and the fraud probability. -/
def runAnalysisWith (deriver : RawTransaction → EnrichedTransaction)
    (classifier : EnrichedTransaction → ℤ × ℝ)
    (t : String) (amount oldOrg newOrig oldDest newDest : ℚ) :
    Except FraudError (ℤ × ℝ) :=
  match dic_type t with
  | none => .error .unknownTransactionType
  | some code =>
      .ok (classifier (deriver
        { type := code, amount := amount, oldbalanceOrg := oldOrg,
          newbalanceOrig := newOrig, oldbalanceDest := oldDest,
          newbalanceDest := newDest }))

/-- The app's actual flow: `runAnalysisWith` specialized to the source's
deriver (the classifier stays an opaque external parameter). -/
noncomputable def runAnalysis (classifier : EnrichedTransaction → ℤ × ℝ)
    (t : String) (amount oldOrg newOrig oldDest newDest : ℚ) :
    Except FraudError (ℤ × ℝ) :=
  runAnalysisWith create_advanced_features classifier t amount oldOrg newOrig oldDest newDest

/-- The worked example of the spec: a CASH_OUT of 1000 from a balance of
10000 going to 9000, destination balances zero. -/
def rawExample : RawTransaction :=
  { type := "CASH_OUT", amount := 1000, oldbalanceOrg := 10000,
    newbalanceOrig := 9000, oldbalanceDest := 0, newbalanceDest := 0 }

/-- A record with a negative origin balance of exactly -1, where the
denominator `oldbalanceOrg + 1` of the first ratio vanishes. -/
def rawNegOrigin : RawTransaction :=
  { type := "PAYMENT", amount := 1000, oldbalanceOrg := -1,
    newbalanceOrig := 0, oldbalanceDest := 0, newbalanceDest := 0 }

/-- A boundary record with `amount` exactly 200000. -/
def rawBoundary : RawTransaction :=
  { type := "PAYMENT", amount := 200000, oldbalanceOrg := 500000,
    newbalanceOrig := 300000, oldbalanceDest := 100, newbalanceDest := 200100 }

lemma dic_type_isSome_iff (t : String) :
    (dic_type t).isSome ↔ t ∈ typeLabels := by
  simp only [dic_type, dic_type_entries, typeLabels, List.lookup, List.mem_cons,
    List.not_mem_nil, or_false]
  rcases h1 : (t == "PAIEMENT") <;> rcases h2 : (t == "TRANSFERT")
    <;> rcases h3 : (t == "RETRAIT") <;> rcases h4 : (t == "DEPOT")
    <;> simp_all

lemma dic_type_eq_none_of_not_mem {t : String} (h : t ∉ typeLabels) :
    dic_type t = none := by
  have h2 := (dic_type_isSome_iff t).not.mpr h
  cases hd : dic_type t with
  | none => rfl
  | some v => rw [hd] at h2; simp at h2

/-- C1: for every raw record, `create_advanced_features` computes the twelve
derived fields by exactly the fixed formulas of the spec: the two balance
differences, the two ratios with the `+1` stabilizer in the denominator, the
two error terms, the three binary indicators, and the three `ln (1 + x)`
logarithmic features. -/
theorem create_advanced_features_formulas (df : RawTransaction) :
    (create_advanced_features df).balance_diff_orig = df.oldbalanceOrg - df.newbalanceOrig
    ∧ (create_advanced_features df).balance_diff_dest = df.newbalanceDest - df.oldbalanceDest
    ∧ (create_advanced_features df).amount_to_oldbalance_orig
        = df.amount / (df.oldbalanceOrg + 1)
    ∧ (create_advanced_features df).amount_to_oldbalance_dest
        = df.amount / (df.oldbalanceDest + 1)
    ∧ (create_advanced_features df).error_balance_orig
        = (create_advanced_features df).balance_diff_orig - df.amount
    ∧ (create_advanced_features df).error_balance_dest
        = (create_advanced_features df).balance_diff_dest - df.amount
    ∧ (create_advanced_features df).is_zero_balance_orig
        = (if df.newbalanceOrig = 0 then 1 else 0)
    ∧ (create_advanced_features df).is_zero_balance_dest
        = (if df.oldbalanceDest = 0 then 1 else 0)
    ∧ (create_advanced_features df).large_transaction
        = (if df.amount > 200000 then 1 else 0)
    ∧ (create_advanced_features df).log_amount = Real.log (1 + (df.amount : ℝ))
    ∧ (create_advanced_features df).log_oldbalance_orig
        = Real.log (1 + (df.oldbalanceOrg : ℝ))
    ∧ (create_advanced_features df).log_oldbalance_dest
        = Real.log (1 + (df.oldbalanceDest : ℝ)) :=
  ⟨rfl, rfl, rfl, rfl, rfl, rfl, rfl, rfl, rfl, rfl, rfl, rfl⟩

/-- C2: on the spec's worked example (CASH_OUT, amount 1000, origin balance
10000 → 9000, destination balances 0), the deriver yields
`balance_diff_orig = 1000`, `error_balance_orig = 0`,
`is_zero_balance_orig = 0`, `is_zero_balance_dest = 1`,
`large_transaction = 0` and `amount_to_oldbalance_orig = 1000/10001`. -/
theorem create_advanced_features_example :
    (create_advanced_features rawExample).balance_diff_orig = 1000
    ∧ (create_advanced_features rawExample).error_balance_orig = 0
    ∧ (create_advanced_features rawExample).is_zero_balance_orig = 0
    ∧ (create_advanced_features rawExample).is_zero_balance_dest = 1
    ∧ (create_advanced_features rawExample).large_transaction = 0
    ∧ (create_advanced_features rawExample).amount_to_oldbalance_orig = 1000 / 10001 := by
  refine ⟨?_, ?_, ?_, ?_, ?_, ?_⟩ <;> norm_num [create_advanced_features, rawExample]

/-- C3: for every type label outside the four recognized ones, the analysis
flow fails with the `UnknownTransactionType` error, whatever the feature
deriver and the classifier are — so the failure happens before derivation
and before the record can reach the classifier. -/
theorem runAnalysisWith_unknown_type_error
    (t : String) (h : t ∉ typeLabels)
    (amount oldOrg newOrig oldDest newDest : ℚ)
    (deriver : RawTransaction → EnrichedTransaction)
    (classifier : EnrichedTransaction → ℤ × ℝ) :
    runAnalysisWith deriver classifier t amount oldOrg newOrig oldDest newDest
      = .error .unknownTransactionType := by
  unfold runAnalysisWith
  rw [dic_type_eq_none_of_not_mem h]

/-- C3 witness: the label "WITHDRAWAL" is not recognized, and on it the flow
(with the source's deriver and an arbitrary concrete classifier) returns the
`UnknownTransactionType` error. -/
theorem runAnalysisWith_unknown_type_error_witness :
    runAnalysisWith create_advanced_features (fun _ => (0, 0))
      "WITHDRAWAL" 1000 10000 9000 0 0 = .error .unknownTransactionType :=
  runAnalysisWith_unknown_type_error "WITHDRAWAL" (by decide) 1000 10000 9000 0 0
    create_advanced_features (fun _ => (0, 0))

/-- C4: for every raw record, `large_transaction` is 1 iff the amount
strictly exceeds 200000, and at the boundary `amount = 200000` it is 0. -/
theorem large_transaction_iff (df : RawTransaction) :
    ((create_advanced_features df).large_transaction = 1 ↔ df.amount > 200000)
    ∧ (df.amount = 200000 → (create_advanced_features df).large_transaction = 0) := by
  constructor
  · simp only [create_advanced_features]
    split <;> simp_all
  · intro h
    simp only [create_advanced_features, h]
    norm_num

/-- C4 witness: on a concrete record with amount exactly 200000, the
indicator is 0 (and the iff holds there). -/
theorem large_transaction_iff_witness :
    ((create_advanced_features rawBoundary).large_transaction = 1
      ↔ rawBoundary.amount > 200000)
    ∧ (create_advanced_features rawBoundary).large_transaction = 0 :=
  ⟨(large_transaction_iff rawBoundary).1, (large_transaction_iff rawBoundary).2 rfl⟩

/-- C5: for every raw record, `is_zero_balance_orig` is 1 iff
`newbalanceOrig = 0` and otherwise 0, and `is_zero_balance_dest` is 1 iff
`oldbalanceDest = 0` and otherwise 0. -/
theorem zero_balance_indicators (df : RawTransaction) :
    ((create_advanced_features df).is_zero_balance_orig = 1 ↔ df.newbalanceOrig = 0)
    ∧ (df.newbalanceOrig ≠ 0 → (create_advanced_features df).is_zero_balance_orig = 0)
    ∧ ((create_advanced_features df).is_zero_balance_dest = 1 ↔ df.oldbalanceDest = 0)
    ∧ (df.oldbalanceDest ≠ 0 → (create_advanced_features df).is_zero_balance_dest = 0) := by
  refine ⟨?_, ?_, ?_, ?_⟩ <;> simp only [create_advanced_features] <;> split <;> simp_all

/-- C5 witness: on the worked example (`newbalanceOrig = 9000`,
`oldbalanceDest = 0`) the origin indicator is 0 and the destination
indicator is 1. -/
theorem zero_balance_indicators_witness :
    (create_advanced_features rawExample).is_zero_balance_orig = 0
    ∧ (create_advanced_features rawExample).is_zero_balance_dest = 1 :=
  ⟨(zero_balance_indicators rawExample).2.1 (by norm_num [rawExample]),
   (zero_balance_indicators rawExample).2.2.1.mpr rfl⟩

/-- C6: for every raw record, the derived `balance_diff_orig` satisfies the
algebraic identity `balance_diff_orig + newbalanceOrig = oldbalanceOrg`. -/
theorem balance_diff_orig_identity (df : RawTransaction) :
    (create_advanced_features df).balance_diff_orig + df.newbalanceOrig
      = df.oldbalanceOrg := by
  simp only [create_advanced_features]
  ring

/-- C7: the type mapping is a fixed bijective lookup: it is defined on
exactly the four business-facing labels (`dic_type t` succeeds iff `t` is
one of the four keys), its entries carry the four keys in order, its values
are exactly the four canonical codes, and those codes are pairwise distinct,
so no two keys map to the same code. -/
theorem dic_type_bijective_lookup :
    (∀ t, (dic_type t).isSome ↔ t ∈ typeLabels)
    ∧ dic_type_entries.map Prod.fst = typeLabels
    ∧ dic_type_entries.map Prod.snd = canonicalCodes
    ∧ canonicalCodes.Nodup
    ∧ typeLabels.length = 4 :=
  ⟨dic_type_isSome_iff, by decide, by decide, by decide, by decide⟩

/-- C8 counterexample: at a record with `oldbalanceOrg = -1` (a negative
value the claim explicitly includes), the denominator `oldbalanceOrg + 1`
of the first ratio is zero, so a division by zero is reached and the guarded
deriver fails instead of succeeding. -/
theorem create_advanced_features_checked_neg :
    rawNegOrigin.oldbalanceOrg + 1 = 0
    ∧ create_advanced_features_checked rawNegOrigin = none := by
  constructor
  · norm_num [rawNegOrigin]
  · unfold create_advanced_features_checked
    rw [if_pos]
    left
    norm_num [rawNegOrigin]

/-- C8 amended: provided `amount`, `oldbalanceOrg` and `oldbalanceDest` are
non-negative (the spec's declared input invariant; the other fields are
unconstrained), no partial operation of the formulas is undefined — both
ratio denominators are nonzero and all three logarithm arguments are
positive — so the guarded deriver succeeds and returns exactly the derived
record. -/
theorem create_advanced_features_checked_total (df : RawTransaction)
    (h1 : 0 ≤ df.amount) (h2 : 0 ≤ df.oldbalanceOrg) (h3 : 0 ≤ df.oldbalanceDest) :
    create_advanced_features_checked df = some (create_advanced_features df) := by
  unfold create_advanced_features_checked
  rw [if_neg]
  push_neg
  refine ⟨by positivity, by positivity, by positivity, by positivity, by positivity⟩

/-- C8 witness: the amended totality theorem applied to the worked example,
whose amount and balances are non-negative. -/
theorem create_advanced_features_checked_total_witness :
    create_advanced_features_checked rawExample
      = some (create_advanced_features rawExample) :=
  create_advanced_features_checked_total rawExample (by norm_num [rawExample])
    (by norm_num [rawExample]) (by norm_num [rawExample])

/-- C9: the deriver is deterministic — two calls on identical inputs return
identical enriched records (it is a pure function of its argument, with no
dependence on external state). -/
theorem create_advanced_features_deterministic (df1 df2 : RawTransaction)
    (h : df1 = df2) :
    create_advanced_features df1 = create_advanced_features df2 := by
  rw [h]

/-- C9 witness: two calls on the worked example agree. -/
theorem create_advanced_features_deterministic_witness :
    create_advanced_features rawExample = create_advanced_features rawExample :=
  create_advanced_features_deterministic rawExample rawExample rfl

/-- C10: the deriver works on a copy and only adds columns: in the returned
enriched record the six raw fields are exactly the input's values (and the
input record itself, being a pure value, is left unchanged by the call). -/
theorem create_advanced_features_preserves_raw_fields (df : RawTransaction) :
    (create_advanced_features df).type = df.type
    ∧ (create_advanced_features df).amount = df.amount
    ∧ (create_advanced_features df).oldbalanceOrg = df.oldbalanceOrg
    ∧ (create_advanced_features df).newbalanceOrig = df.newbalanceOrig
    ∧ (create_advanced_features df).oldbalanceDest = df.oldbalanceDest
    ∧ (create_advanced_features df).newbalanceDest = df.newbalanceDest :=
  ⟨rfl, rfl, rfl, rfl, rfl, rfl⟩
